import Mathlib

/-!
Shallow embedding of src/operation/operation.go (package operation of the
go-sdk repository): the operation Handle, its Poll refresh primitive, and
the waitInterval polling loop, together with theorems checking the
specification claims.

External collaborators are modelled as follows.
The gRPC clients behind the routing capability are a record of pure
functions from the request index (how many Get calls this client has
served so far, modelling the backend evolving between calls) and the
operation id to a result record carrying the returned operation state,
the returned error, and the values of the x-operation-poll-interval
response header.  The uuid.Parse test is abstracted as a boolean
predicate on strings, quantified over in the theorems.  Context
cancellation is an oracle saying, for each loop iteration, whether the
ctx.Done branch of the select wins the race at the waiting point of that
iteration.  Wall-clock time is not modelled; instead the loop emits a
trace of events (queries issued, sleeps with their duration, timer
stops, retry-counter increments) which the temporal claims are stated
over.
-/

namespace GoSdk

/-- Status enum of the doublecloud.v1.Operation proto. -/
inductive OperationStatus where
  | STATUS_INVALID
  | STATUS_PENDING
  | STATUS_RUNNING
  | STATUS_DONE
deriving DecidableEq, Repr

/-- google.rpc.Status as stored in the Operation proto error field:
a numeric code (0 is codes.OK) and a message. -/
structure RpcStatus where
  code : Nat
  message : String
deriving DecidableEq, Repr

/-- The doublecloud.v1.Operation message (the snapshot).  createTime is
unix nanoseconds. -/
structure Proto where
  id : String
  description : String
  createdBy : String
  resourceId : String
  createTime : Int
  metadata : List (String × String)
  status : OperationStatus
  error : Option RpcStatus
deriving DecidableEq, Repr

/-- An error returned by a gRPC Get call.  hasStatus models whether
grpc status.FromError recognises it (directly or through errors.As
unwrapping) as a gRPC status error; code is its status code. -/
structure GrpcError where
  hasStatus : Bool
  code : Nat
deriving DecidableEq, Repr

/-- grpc codes.NotFound. -/
def codes_NotFound : Nat := 5

/-- Result of one family Get call: the returned operation state (nil on
failure), the returned error, and the values of the
x-operation-poll-interval response header captured via the grpc.Header
call option. -/
structure GetResult where
  state : Option Proto
  err : Option GrpcError
  pollIntervalHeader : List String
deriving DecidableEq, Repr

/-- The operation-service backend family selected by id classification
(the tagged variant of the type switch in Poll). -/
inductive Family where
  | clickhouse
  | kafka
  | transfer
  | network
deriving DecidableEq, Repr

/-- The routing capability: one Get entry point per family.  Each is a
pure function of the request index and the operation id. -/
structure Client where
  clickhouseGet : Nat → String → GetResult
  kafkaGet : Nat → String → GetResult
  transferGet : Nat → String → GetResult
  networkGet : Nat → String → GetResult

/-- Select the Get entry point for a family. -/
def Client.get (c : Client) : Family → Nat → String → GetResult
  | .clickhouse => c.clickhouseGet
  | .kafka => c.kafkaGet
  | .transfer => c.transferGet
  | .network => c.networkGet

/-- The Operation handle: the current proto snapshot plus the client.
New guarantees the snapshot is present, so it is stored directly. -/
structure Operation where
  proto : Proto
  client : Client

/-- func New(client Client, proto *Proto) *Operation.  A nil proto
panics (modelled as none); otherwise the handle stores the given proto
and client. -/
def New (client : Client) (proto : Option Proto) : Option Operation :=
  match proto with
  | none => none
  | some p => some { proto := p, client := client }

def Operation.Proto' (o : Operation) : Proto := o.proto

def Operation.Client' (o : Operation) : Client := o.client

def Operation.Id (o : Operation) : String := o.proto.id

def Operation.Description (o : Operation) : String := o.proto.description

def Operation.CreatedBy (o : Operation) : String := o.proto.createdBy

def Operation.ResourceId (o : Operation) : String := o.proto.resourceId

def Operation.CreatedAt (o : Operation) : Int := o.proto.createTime

def Operation.Metadata (o : Operation) : List (String × String) := o.proto.metadata

/-- ErrorStatus: status.FromProto of the proto error field, nil when the
field is nil. -/
def Operation.ErrorStatus (o : Operation) : Option RpcStatus := o.proto.error

/-- Error: ErrorStatus().Err().  grpc Status.Err returns nil when the
code is codes.OK (0), so a present error with code 0 yields none. -/
def Operation.Error (o : Operation) : Option RpcStatus :=
  match o.ErrorStatus with
  | none => none
  | some st => if st.code = 0 then none else some st

def Operation.Done (o : Operation) : Bool :=
  o.proto.status = .STATUS_DONE || o.proto.status = .STATUS_INVALID

def Operation.Ok (o : Operation) : Bool := o.Done && o.proto.error = none

def Operation.Failed (o : Operation) : Bool := o.Done && o.proto.error ≠ none

def CLICKHOUSE_OPERATION_PREFIX : String := "cho"

def KAFKA_OPERATION_PREFIX : String := "kfo"

def TRANSFER_OPERATION_PREFIX : String := "dtj"

def TRANSFER_ENDPOINTS_OPERATION_PREFIX : String := "dte"

/-- strings.HasPrefix: the second string is a prefix of the first,
character by character. -/
def strStartsWith (s pre : String) : Bool := pre.data.isPrefixOf s.data

/-- The if-chain of Poll classifying an operation id, as a tagged
variant: first matching rule wins; uuidOk abstracts uuid.Parse
succeeding. -/
def pollFamily (uuidOk : String → Bool) (id : String) : Option Family :=
  if strStartsWith id CLICKHOUSE_OPERATION_PREFIX then some .clickhouse
  else if strStartsWith id KAFKA_OPERATION_PREFIX then some .kafka
  else if strStartsWith id TRANSFER_OPERATION_PREFIX
      || strStartsWith id TRANSFER_ENDPOINTS_OPERATION_PREFIX then some .transfer
  else if uuidOk id then some .network
  else none

/-- An error returned by Poll.
unknownType is the sdkerrors.WithMessagef(err, "operation unknown type")
return taken when state is nil, wrapping the (possibly nil) query error.
Modelled from the spec: the sdkerrors wrapper is the
UnknownOperationType condition of the error taxonomy, and it preserves
the original underlying error for programmatic inspection.
rpc is the plain return of a non-nil query error when state is
non-nil. -/
inductive PollError where
  | unknownType (cause : Option GrpcError)
  | rpc (e : GrpcError)
deriving DecidableEq, Repr

/-- grpc status.FromError over the error chain of a Poll error: the
status code when some error in the chain is a gRPC status error
(errors.As unwraps the sdkerrors message wrapper), none otherwise. -/
def statusFromError : PollError → Option Nat
  | .unknownType none => none
  | .unknownType (some e) => if e.hasStatus then some e.code else none
  | .rpc e => if e.hasStatus then some e.code else none

/-- func shoudRetry(err error) bool: the error is a gRPC status error
with code codes.NotFound. -/
def shoudRetry (e : PollError) : Bool :=
  match statusFromError e with
  | some c => c = codes_NotFound
  | none => false

/-- Outcome of one Poll call: the returned error, the (possibly
updated) operation, which family was queried (none when no query was
issued), and the x-operation-poll-interval header values captured from
the call. -/
structure PollOut where
  err : Option PollError
  op : Operation
  queried : Option Family
  headers : List String

/-- func (o *Operation) Poll(ctx, opts) error, at request index k.
Classifies the id, issues the single matching Get, and on success
replaces the snapshot.  In the Go source the network branch reads
else if underscore, err := uuid.Parse(o.Id()); err == nil - which
declares a new err scoped to that branch, so the assignment
state, err = ...networkGet... writes the branch-local err and the outer
err stays nil: a failed network query reaches the state == nil return
with a nil underlying error.  The model reproduces that by dropping the
query error in the network case. -/
def Operation.Poll (o : Operation) (uuidOk : String → Bool) (k : Nat) : PollOut :=
  match pollFamily uuidOk o.Id with
  | none => { err := some (.unknownType none), op := o, queried := none, headers := [] }
  | some fam =>
    let r := o.client.get fam k o.Id
    let err : Option GrpcError := if fam = .network then none else r.err
    match r.state with
    | none =>
      { err := some (.unknownType err), op := o, queried := some fam,
        headers := r.pollIntervalHeader }
    | some st =>
      match err with
      | some e =>
        { err := some (.rpc e), op := o, queried := some fam,
          headers := r.pollIntervalHeader }
      | none =>
        { err := none, op := { o with proto := st }, queried := some fam,
          headers := r.pollIntervalHeader }

/-- time.Second in nanoseconds (time.Duration is an int64 count of
nanoseconds). -/
def time_Second : Int := 1000000000

/-- const DefaultPollInterval = time.Second. -/
def DefaultPollInterval : Int := 1000000000

/-- const maxNotFoundRetry = 3. -/
def maxNotFoundRetry : Nat := 3

/-- Wrap an integer into the int64 range, as Go multiplication of
time.Duration values does on overflow. -/
def int64Wrap (z : Int) : Int := (z + 2 ^ 63) % 2 ^ 64 - 2 ^ 63

/-- Accumulator pass over decimal digit characters; none on the first
non-digit. -/
def digitsValAux : Nat → List Char → Option Nat
  | acc, [] => some acc
  | acc, c :: cs =>
    if c.isDigit then digitsValAux (acc * 10 + (c.toNat - 48)) cs else none

/-- Numeric value of a list of decimal digit characters; none when the
list is empty or contains a non-digit. -/
def digitsVal (l : List Char) : Option Nat :=
  match l with
  | [] => none
  | _ :: _ => digitsValAux 0 l

/-- strconv.Atoi: optional sign, decimal digits, int64 range check (out
of range is an error, so none). -/
def atoi (s : String) : Option Int :=
  let signed : Bool × List Char :=
    match s.data with
    | '+' :: r => (false, r)
    | '-' :: r => (true, r)
    | r => (false, r)
  match digitsVal signed.2 with
  | none => none
  | some n =>
    let v : Int := if signed.1 then -(n : Int) else (n : Int)
    if v < -(2 ^ 63) ∨ 2 ^ 63 - 1 < v then none else some v

/-- The interval selection of one loop cycle: the first value of the
x-operation-poll-interval header, parsed with Atoi and scaled to
nanoseconds by int64 (wrapping) multiplication with time.Second, when
present and parseable; the caller-supplied pollInterval otherwise. -/
def resolveInterval (pollInterval : Int) (vals : List String) : Int :=
  match vals with
  | [] => pollInterval
  | v :: _ =>
    match atoi v with
    | some i => int64Wrap (i * time_Second)
    | none => pollInterval

/-- The error held by a fired context (ctx.Err() when ctx.Done() is
closed). -/
inductive CtxError where
  | canceled
  | deadlineExceeded
deriving DecidableEq, Repr

/-- The cancellation context of a wait: cancelAt k says whether the
ctx.Done branch of the select wins the race at the waiting point of the
iteration that issued poll number k; err is ctx.Err() then. -/
structure Ctx where
  cancelAt : Nat → Bool
  err : CtxError

/-- An error returned by waitInterval, one constructor per
sdkerrors.WithMessagef wrapping site.
Modelled from the spec: the wrappers are the error taxonomy -
queryError is the QueryError "operation poll fail" wrap of a Poll
failure, cancellationError is the CancellationError "operation wait
context done" wrap of ctx.Err(), operationError is the OperationError
"operation failed" wrap of the recorded operation error; each carries
the underlying error and the operation id, and a nil underlying error
at the final wrapping site yields no error at all. -/
inductive WaitError where
  | queryError (cause : PollError) (id : String)
  | cancellationError (cause : CtxError) (id : String)
  | operationError (cause : RpcStatus) (id : String)
deriving DecidableEq, Repr

/-- Result of a waitInterval run: no error, an error, or fuel
exhaustion of the model (the Go loop simply keeps running). -/
inductive WaitResult where
  | ok
  | err (e : WaitError)
  | outOfFuel
deriving DecidableEq, Repr

/-- Observable events of a waitInterval run: a Get issued to a family
as poll number k, a completed timer wait of a duration in nanoseconds,
a timer stopped on the cancellation path, and (instrumentation) an
increment of the not-found retry counter after poll number k. -/
inductive Event where
  | query (fam : Family) (k : Nat)
  | sleep (ns : Int)
  | timerStop
  | notFoundRetry (k : Nat)
deriving DecidableEq, Repr

/-- Mutable state of the wait loop: the handle (its snapshot evolves),
the notFoundCount counter, and the number of polls issued so far. -/
structure LoopState where
  op : Operation
  notFoundCount : Nat
  polls : Nat

/-- What one loop iteration decided: return from waitInterval, or
continue to the next iteration with a new state; either way with the
events the iteration emitted. -/
inductive BodyOut where
  | ret (r : WaitResult) (evs : List Event)
  | next (st : LoopState) (evs : List Event)

/-- The final return of waitInterval:
sdkerrors.WithMessagef(o.Error(), "operation failed"), which is no
error when o.Error() is nil. -/
def waitReturn (o : Operation) : WaitResult :=
  match o.Error with
  | none => .ok
  | some st => .err (.operationError st o.Id)

/-- The tail of a loop iteration after the poll error was absorbed or
absent: the break on Done, interval resolution from the captured
headers, the busy-poll continue on a non-positive interval, and the
select between the timer and ctx.Done. -/
def afterPoll (ctx : Ctx) (pollInterval : Int) (polls : Nat) (evs : List Event)
    (headers : List String) (op' : Operation) (nfc : Nat) : BodyOut :=
  if op'.Done then .ret (waitReturn op') evs
  else
    let interval := resolveInterval pollInterval headers
    if interval ≤ 0 then .next { op := op', notFoundCount := nfc, polls := polls + 1 } evs
    else if ctx.cancelAt polls then
      .ret (.err (.cancellationError ctx.err op'.Id)) (evs ++ [.timerStop])
    else
      .next { op := op', notFoundCount := nfc, polls := polls + 1 }
        (evs ++ [.sleep interval])

/-- The query events of one Poll call: one query event when a family
Get was issued as poll number k, none otherwise. -/
def queryEvents (p : PollOut) (k : Nat) : List Event :=
  match p.queried with
  | some fam => [.query fam k]
  | none => []

/-- One iteration of the for loop of waitInterval: the loop condition,
the poll, the not-found absorption or the poll-fail return, then
afterPoll. -/
def loopBody (uuidOk : String → Bool) (ctx : Ctx) (pollInterval : Int)
    (st : LoopState) : BodyOut :=
  if st.op.Done then .ret (waitReturn st.op) []
  else
    let p := st.op.Poll uuidOk st.polls
    match p.err with
    | some e =>
      if st.notFoundCount < maxNotFoundRetry && shoudRetry e then
        afterPoll ctx pollInterval st.polls
          (queryEvents p st.polls ++ [.notFoundRetry st.polls])
          p.headers p.op (st.notFoundCount + 1)
      else .ret (.err (.queryError e st.op.Id)) (queryEvents p st.polls)
    | none =>
      afterPoll ctx pollInterval st.polls (queryEvents p st.polls)
        p.headers p.op st.notFoundCount

/-- Fuel-indexed unfolding of the for loop of waitInterval. -/
def waitIntervalAux (uuidOk : String → Bool) (ctx : Ctx) (pollInterval : Int) :
    Nat → LoopState → WaitResult × List Event
  | 0, _ => (.outOfFuel, [])
  | fuel + 1, st =>
    match loopBody uuidOk ctx pollInterval st with
    | .ret r evs => (r, evs)
    | .next st' evs =>
      let rest := waitIntervalAux uuidOk ctx pollInterval fuel st'
      (rest.1, evs ++ rest.2)

/-- func (o *Operation) waitInterval(ctx, pollInterval, opts) error. -/
def Operation.waitInterval (o : Operation) (uuidOk : String → Bool) (ctx : Ctx)
    (pollInterval : Int) (fuel : Nat) : WaitResult × List Event :=
  waitIntervalAux uuidOk ctx pollInterval fuel
    { op := o, notFoundCount := 0, polls := 0 }

/-- func (o *Operation) WaitInterval(ctx, pollInterval, opts) error:
delegates to waitInterval. -/
def Operation.WaitInterval (o : Operation) (uuidOk : String → Bool) (ctx : Ctx)
    (pollInterval : Int) (fuel : Nat) : WaitResult × List Event :=
  o.waitInterval uuidOk ctx pollInterval fuel

/-- func (o *Operation) Wait(ctx, opts) error: WaitInterval with
DefaultPollInterval. -/
def Operation.Wait (o : Operation) (uuidOk : String → Bool) (ctx : Ctx)
    (fuel : Nat) : WaitResult × List Event :=
  o.WaitInterval uuidOk ctx DefaultPollInterval fuel

/-! Observations over runs, used to state the claims. -/

/-- Is an event a query event. -/
def Event.isQuery : Event → Bool
  | .query _ _ => true
  | _ => false

/-- Is an event a retry-counter increment. -/
def Event.isNotFoundRetry : Event → Bool
  | .notFoundRetry _ => true
  | _ => false

/-- Number of queries issued in a trace. -/
def queryCount (tr : List Event) : Nat := tr.countP Event.isQuery

/-- Number of not-found retry-counter increments in a trace. -/
def retryCount (tr : List Event) : Nat := tr.countP Event.isNotFoundRetry

/-- Is a wait result the cancellation error. -/
def isCancellation : WaitResult → Bool
  | .err (.cancellationError _ _) => true
  | _ => false

/-! Concrete fixtures for witnesses and counterexamples. -/

/-- A uuid.Parse abstraction under which nothing parses. -/
def uuidNone : String → Bool := fun _ => false

/-- A uuid.Parse abstraction under which exactly the given string
parses. -/
def uuidIs (t : String) : String → Bool := fun s => s == t

/-- A Get that returns nothing at all. -/
def emptyGet : Nat → String → GetResult :=
  fun _ _ => { state := none, err := none, pollIntervalHeader := [] }

/-- A running snapshot with a clickhouse-prefixed id. -/
def protoRun : Proto :=
  { id := "cho-op-1", description := "", createdBy := "", resourceId := "",
    createTime := 0, metadata := [], status := .STATUS_RUNNING, error := none }

/-- The same snapshot, done without error. -/
def protoDone : Proto := { protoRun with status := .STATUS_DONE }

/-- A NotFound gRPC status error. -/
def nfError : GrpcError := { hasStatus := true, code := 5 }

/-- A context that never cancels. -/
def ctxNever : Ctx := { cancelAt := fun _ => false, err := .canceled }

/-- A context whose ctx.Done branch wins the very first select. -/
def ctxCancel0 : Ctx := { cancelAt := fun _ => true, err := .canceled }

/-- A client whose clickhouse Get returns NotFound once and then the
done snapshot. -/
def clientNfThenDone : Client :=
  { clickhouseGet := fun k _ =>
      if k = 0 then { state := none, err := some nfError, pollIntervalHeader := [] }
      else { state := some protoDone, err := none, pollIntervalHeader := [] },
    kafkaGet := emptyGet, transferGet := emptyGet, networkGet := emptyGet }

/-- Handle over the running snapshot wired to clientNfThenDone. -/
def opNfThenDone : Operation := { proto := protoRun, client := clientNfThenDone }

/-- A client whose clickhouse Get always returns NotFound. -/
def clientAllNf : Client :=
  { clickhouseGet := fun _ _ =>
      { state := none, err := some nfError, pollIntervalHeader := [] },
    kafkaGet := emptyGet, transferGet := emptyGet, networkGet := emptyGet }

/-- Handle over the running snapshot wired to clientAllNf. -/
def opAllNf : Operation := { proto := protoRun, client := clientAllNf }

/-- A client whose clickhouse Get returns the running snapshot with a
poll-interval header of 10000000000 seconds, then the done snapshot. -/
def clientBigHeader : Client :=
  { clickhouseGet := fun k _ =>
      if k = 0 then
        { state := some protoRun, err := none,
          pollIntervalHeader := ["10000000000"] }
      else { state := some protoDone, err := none, pollIntervalHeader := [] },
    kafkaGet := emptyGet, transferGet := emptyGet, networkGet := emptyGet }

/-- Handle over the running snapshot wired to clientBigHeader. -/
def opBigHeader : Operation := { proto := protoRun, client := clientBigHeader }

/-- A client whose clickhouse Get always returns the running
snapshot. -/
def clientRunning : Client :=
  { clickhouseGet := fun _ _ =>
      { state := some protoRun, err := none, pollIntervalHeader := [] },
    kafkaGet := emptyGet, transferGet := emptyGet, networkGet := emptyGet }

/-- Handle over the running snapshot wired to clientRunning. -/
def opRunning : Operation := { proto := protoRun, client := clientRunning }

/-- A valid UUID operation id with no recognized prefix. -/
def netOpId : String := "123e4567-e89b-12d3-a456-426614174000"

/-- An Internal gRPC status error. -/
def internalError : GrpcError := { hasStatus := true, code := 13 }

/-- A client whose network Get fails with internalError. -/
def clientNetFail : Client :=
  { clickhouseGet := emptyGet, kafkaGet := emptyGet, transferGet := emptyGet,
    networkGet := fun _ _ =>
      { state := none, err := some internalError, pollIntervalHeader := [] } }

/-- Handle over a running snapshot with the UUID id, wired to
clientNetFail. -/
def opNetFail : Operation :=
  { proto := { protoRun with id := netOpId }, client := clientNetFail }

/-- A done snapshot carrying a recorded error whose code is codes.OK. -/
def protoDoneOkCode : Proto :=
  { protoRun with
    id := "cho-done-zero"
    status := OperationStatus.STATUS_DONE
    error := some { code := 0, message := "zero code" } }

/-- Handle over protoDoneOkCode. -/
def opDoneOkCode : Operation :=
  { proto := protoDoneOkCode, client := clientRunning }

/-- A done snapshot carrying a recorded error with a non-OK code. -/
def protoDoneErr : Proto :=
  { protoRun with
    id := "cho-done-err"
    status := OperationStatus.STATUS_DONE
    error := some { code := 7, message := "boom" } }

/-- Handle over protoDoneErr. -/
def opDoneErr : Operation := { proto := protoDoneErr, client := clientRunning }

/-- An unclassifiable handle: no known prefix and not a UUID. -/
def opUnknown : Operation :=
  { proto := { protoRun with id := "zzz-not-a-uuid" }, client := clientRunning }

/-! Helper lemmas about Poll. -/

/-- Poll when the matched Get returns a nil state: the unknown-type
wrap of the (network-shadowed) query error, handle unchanged. -/
theorem Poll_state_none (o : Operation) (uuidOk : String → Bool) (k : Nat)
    (fam : Family) (hf : pollFamily uuidOk o.Id = some fam)
    (hs : (o.client.get fam k o.Id).state = none) :
    o.Poll uuidOk k =
      { err := some (.unknownType (if fam = Family.network then none
          else (o.client.get fam k o.Id).err)),
        op := o, queried := some fam,
        headers := (o.client.get fam k o.Id).pollIntervalHeader } := by
  simp only [Operation.Poll, hf, hs]

/-- Poll when the matched Get returns a state together with an error
surviving the network shadowing: the error is returned as is, handle
unchanged. -/
theorem Poll_rpc (o : Operation) (uuidOk : String → Bool) (k : Nat)
    (fam : Family) (stNew : Proto) (e : GrpcError)
    (hf : pollFamily uuidOk o.Id = some fam)
    (hs : (o.client.get fam k o.Id).state = some stNew)
    (he : (if fam = Family.network then none
        else (o.client.get fam k o.Id).err) = some e) :
    o.Poll uuidOk k =
      { err := some (.rpc e), op := o, queried := some fam,
        headers := (o.client.get fam k o.Id).pollIntervalHeader } := by
  simp only [Operation.Poll, hf, hs, he]

/-- Poll on success: no error, snapshot replaced by the queried
state. -/
theorem Poll_success (o : Operation) (uuidOk : String → Bool) (k : Nat)
    (fam : Family) (stNew : Proto)
    (hf : pollFamily uuidOk o.Id = some fam)
    (hs : (o.client.get fam k o.Id).state = some stNew)
    (he : (if fam = Family.network then none
        else (o.client.get fam k o.Id).err) = none) :
    o.Poll uuidOk k =
      { err := none, op := { o with proto := stNew }, queried := some fam,
        headers := (o.client.get fam k o.Id).pollIntervalHeader } := by
  simp only [Operation.Poll, hf, hs, he]

/-- Poll when nothing classifies: no query, unknown-type error with no
cause, handle unchanged. -/
theorem Poll_unclassified (o : Operation) (uuidOk : String → Bool) (k : Nat)
    (hf : pollFamily uuidOk o.Id = none) :
    o.Poll uuidOk k =
      { err := some (.unknownType none), op := o, queried := none,
        headers := [] } := by
  simp only [Operation.Poll, hf]

/-- Poll queries exactly the family selected by the classification
chain. -/
theorem Poll_queried_eq (o : Operation) (uuidOk : String → Bool) (k : Nat) :
    (o.Poll uuidOk k).queried = pollFamily uuidOk o.Id := by
  cases hf : pollFamily uuidOk o.Id with
  | none => rw [Poll_unclassified o uuidOk k hf]
  | some fam =>
    cases hs : (o.client.get fam k o.Id).state with
    | none => rw [Poll_state_none o uuidOk k fam hf hs]
    | some stNew =>
      cases he : (if fam = Family.network then none
          else (o.client.get fam k o.Id).err) with
      | none => rw [Poll_success o uuidOk k fam stNew hf hs he]
      | some e => rw [Poll_rpc o uuidOk k fam stNew e hf hs he]

/-! Claim theorems. -/

/-- C9: New fails fast (panics, modelled as none) exactly when the
initial snapshot pointer is nil; for every non-nil snapshot it returns
a handle whose stored snapshot and client are the arguments given. -/
theorem New_nil_fails_fast :
    (∀ c : Client, New c none = none) ∧
    (∀ (c : Client) (p : Proto), New c (some p) = some { proto := p, client := c }) :=
  ⟨fun _ => rfl, fun _ _ => rfl⟩

/-- C1: Poll selects the backend family by the first matching rule in
fixed order: prefix cho routes to the clickhouse query, kfo to the
kafka query, dtj or dte to the transfer query, otherwise an id that
parses as a UUID routes to the network query, and otherwise no query is
issued and classification fails with the unknown-type error. -/
theorem Poll_routes_first_match (uuidOk : String → Bool) (k : Nat) (o : Operation) :
    (strStartsWith o.Id CLICKHOUSE_OPERATION_PREFIX = true →
      (o.Poll uuidOk k).queried = some Family.clickhouse) ∧
    (strStartsWith o.Id CLICKHOUSE_OPERATION_PREFIX = false →
     strStartsWith o.Id KAFKA_OPERATION_PREFIX = true →
      (o.Poll uuidOk k).queried = some Family.kafka) ∧
    (strStartsWith o.Id CLICKHOUSE_OPERATION_PREFIX = false →
     strStartsWith o.Id KAFKA_OPERATION_PREFIX = false →
     (strStartsWith o.Id TRANSFER_OPERATION_PREFIX = true ∨
      strStartsWith o.Id TRANSFER_ENDPOINTS_OPERATION_PREFIX = true) →
      (o.Poll uuidOk k).queried = some Family.transfer) ∧
    (strStartsWith o.Id CLICKHOUSE_OPERATION_PREFIX = false →
     strStartsWith o.Id KAFKA_OPERATION_PREFIX = false →
     strStartsWith o.Id TRANSFER_OPERATION_PREFIX = false →
     strStartsWith o.Id TRANSFER_ENDPOINTS_OPERATION_PREFIX = false →
     uuidOk o.Id = true →
      (o.Poll uuidOk k).queried = some Family.network) ∧
    (strStartsWith o.Id CLICKHOUSE_OPERATION_PREFIX = false →
     strStartsWith o.Id KAFKA_OPERATION_PREFIX = false →
     strStartsWith o.Id TRANSFER_OPERATION_PREFIX = false →
     strStartsWith o.Id TRANSFER_ENDPOINTS_OPERATION_PREFIX = false →
     uuidOk o.Id = false →
      (o.Poll uuidOk k).queried = none ∧
      (o.Poll uuidOk k).err = some (PollError.unknownType none) ∧
      (o.Poll uuidOk k).op = o) := by
  refine ⟨fun h1 => ?_, fun h1 h2 => ?_, fun h1 h2 h3 => ?_,
    fun h1 h2 h3 h4 h5 => ?_, fun h1 h2 h3 h4 h5 => ?_⟩
  · rw [Poll_queried_eq]; simp [pollFamily, h1]
  · rw [Poll_queried_eq]; simp [pollFamily, h1, h2]
  · rw [Poll_queried_eq]; rcases h3 with h3 | h3 <;> simp [pollFamily, h1, h2, h3]
  · rw [Poll_queried_eq]; simp [pollFamily, h1, h2, h3, h4, h5]
  · have hf : pollFamily uuidOk o.Id = none := by
      simp [pollFamily, h1, h2, h3, h4, h5]
    rw [Poll_unclassified o uuidOk k hf]
    exact ⟨rfl, rfl, rfl⟩

/-- Witness for C1 at a concrete clickhouse-prefixed id. -/
theorem Poll_routes_first_match_witness :
    (opRunning.Poll uuidNone 0).queried = some Family.clickhouse :=
  (Poll_routes_first_match uuidNone 0 opRunning).1 (by decide)

/-- C2 (evaluating the code at the failing input): the id is a UUID, so
the network query is issued; the network Get fails with a non-nil
error; yet Poll returns the unknown-type error with a nil cause - the
query error was lost to the shadowed err variable of the
uuid.Parse if statement. -/
theorem Poll_network_error_dropped :
    (opNetFail.Poll (uuidIs netOpId) 0).queried = some Family.network ∧
    (clientNetFail.networkGet 0 netOpId).err = some internalError ∧
    (opNetFail.Poll (uuidIs netOpId) 0).err = some (PollError.unknownType none) := by
  decide

/-- C3: Poll is atomic with respect to the stored snapshot: on any
error the handle is exactly what it was before the call, and on success
the snapshot is replaced wholesale by the state the matched query
returned, with the client unchanged. -/
theorem Poll_atomic (uuidOk : String → Bool) (k : Nat) (o : Operation) :
    ((o.Poll uuidOk k).err ≠ none → (o.Poll uuidOk k).op = o) ∧
    ((o.Poll uuidOk k).err = none →
      (o.Poll uuidOk k).op.client = o.client ∧
      ∃ fam, pollFamily uuidOk o.Id = some fam ∧
        (o.client.get fam k o.Id).state = some (o.Poll uuidOk k).op.proto) := by
  cases hf : pollFamily uuidOk o.Id with
  | none =>
    rw [Poll_unclassified o uuidOk k hf]
    exact ⟨fun _ => rfl, fun h => absurd h (by simp)⟩
  | some fam =>
    cases hs : (o.client.get fam k o.Id).state with
    | none =>
      rw [Poll_state_none o uuidOk k fam hf hs]
      exact ⟨fun _ => rfl, fun h => absurd h (by simp)⟩
    | some stNew =>
      cases he : (if fam = Family.network then none
          else (o.client.get fam k o.Id).err) with
      | some e =>
        rw [Poll_rpc o uuidOk k fam stNew e hf hs he]
        exact ⟨fun _ => rfl, fun h => absurd h (by simp)⟩
      | none =>
        rw [Poll_success o uuidOk k fam stNew hf hs he]
        exact ⟨fun h => absurd rfl h, fun _ => ⟨rfl, fam, rfl, hs⟩⟩

/-- Witness for C3 at a concrete erroring input: the handle is
unchanged. -/
theorem Poll_atomic_witness : (opUnknown.Poll uuidNone 0).op = opUnknown :=
  (Poll_atomic uuidNone 0 opUnknown).1 (by decide)

/-- C5 counterexample: the first poll fails with NotFound, the retry
counter is 0 < 3, yet the loop sleeps the base interval (a sleep event
sits between the failed query and the retrying query), so the retry is
not issued immediately. -/
theorem waitInterval_sleep_between_notFound_retries :
    opNfThenDone.waitInterval uuidNone ctxNever 1000000000 10 =
      (WaitResult.ok,
       [Event.query Family.clickhouse 0, Event.notFoundRetry 0,
        Event.sleep 1000000000, Event.query Family.clickhouse 1]) ∧
    Event.sleep 1000000000 ∈ (opNfThenDone.waitInterval uuidNone ctxNever 1000000000 10).2 := by
  decide

/-- C6 counterexample: the header value 10000000000 is parseable, so
the claim says the cycle waits 10000000000 seconds; but the int64
product with time.Second overflows to a negative duration, and the loop
skips waiting entirely (no sleep event between the two queries). -/
theorem waitInterval_header_overflow :
    atoi "10000000000" = some 10000000000 ∧
    resolveInterval 1000000000 ["10000000000"] = -8446744073709551616 ∧
    opBigHeader.waitInterval uuidNone ctxNever 1000000000 10 =
      (WaitResult.ok,
       [Event.query Family.clickhouse 0, Event.query Family.clickhouse 1]) := by
  decide

/-- C7 counterexample: a terminal snapshot whose recorded error is
present but has code codes.OK: waitInterval returns no error, although
the claim says a recorded error always yields a wrapping error. -/
theorem waitInterval_okCode_error_no_error :
    opDoneOkCode.proto.error = some { code := 0, message := "zero code" } ∧
    opDoneOkCode.Done = true ∧
    opDoneOkCode.waitInterval uuidNone ctxNever 1000000000 3 =
      (WaitResult.ok, []) := by
  decide

/-- C7 as amended: on a terminal handle the wait returns no error when
the recorded error is absent or carries code codes.OK, and otherwise
returns the operation-failed wrap of the recorded error, which is
distinguishable by its wrapper from a query failure. -/
theorem waitInterval_done_return (uuidOk : String → Bool) (ctx : Ctx)
    (pollInterval : Int) (fuel : Nat) (o : Operation) (hd : o.Done = true) :
    o.waitInterval uuidOk ctx pollInterval (fuel + 1) = (waitReturn o, []) ∧
    (o.proto.error = none → waitReturn o = .ok) ∧
    (∀ st, o.proto.error = some st → st.code = 0 → waitReturn o = .ok) ∧
    (∀ st, o.proto.error = some st → st.code ≠ 0 →
      waitReturn o = .err (.operationError st o.Id)) ∧
    (∀ s i pe j, WaitError.operationError s i ≠ WaitError.queryError pe j) := by
  refine ⟨?_, ?_, ?_, ?_, ?_⟩
  · simp [Operation.waitInterval, waitIntervalAux, loopBody, hd]
  · intro h; simp [waitReturn, Operation.Error, Operation.ErrorStatus, h]
  · intro st h hc; simp [waitReturn, Operation.Error, Operation.ErrorStatus, h, hc]
  · intro st h hc; simp [waitReturn, Operation.Error, Operation.ErrorStatus, h, hc]
  · intro s i pe j; simp

/-- Witness for C7 at a concrete terminal handle with a non-OK recorded
error. -/
theorem waitInterval_done_return_witness :
    opDoneErr.waitInterval uuidNone ctxNever 1000000000 1 =
      (WaitResult.err (WaitError.operationError { code := 7, message := "boom" }
        "cho-done-err"), []) :=
  ((waitInterval_done_return uuidNone ctxNever 1000000000 0 opDoneErr (by decide)).1).trans
    (by decide)

/-! Helper lemmas about the loop. -/

/-- Unfolding of the loop at zero fuel. -/
theorem waitIntervalAux_zero (u : String → Bool) (ctx : Ctx) (b : Int)
    (st : LoopState) : waitIntervalAux u ctx b 0 st = (.outOfFuel, []) := rfl

/-- Unfolding of the loop when the iteration returns. -/
theorem waitIntervalAux_succ_ret (u : String → Bool) (ctx : Ctx) (b : Int)
    (fuel : Nat) (st : LoopState) (r : WaitResult) (evs : List Event)
    (h : loopBody u ctx b st = .ret r evs) :
    waitIntervalAux u ctx b (fuel + 1) st = (r, evs) := by
  simp [waitIntervalAux, h]

/-- Unfolding of the loop when the iteration continues. -/
theorem waitIntervalAux_succ_next (u : String → Bool) (ctx : Ctx) (b : Int)
    (fuel : Nat) (st st' : LoopState) (evs : List Event)
    (h : loopBody u ctx b st = .next st' evs) :
    waitIntervalAux u ctx b (fuel + 1) st =
      ((waitIntervalAux u ctx b fuel st').1,
        evs ++ (waitIntervalAux u ctx b fuel st').2) := by
  simp [waitIntervalAux, h]

/-- A loop iteration on a non-done handle whose poll is a retryable
not-found with budget left: the counter increments and the iteration
proceeds to the wait decision on the headers of the failed call, the
handle unchanged. -/
theorem loopBody_absorb (u : String → Bool) (ctx : Ctx) (b : Int)
    (st : LoopState) (fam : Family) (e : GrpcError) (hv : List String)
    (hnd : st.op.Done = false)
    (hf : pollFamily u st.op.Id = some fam)
    (hnn : fam ≠ Family.network)
    (hget : st.op.client.get fam st.polls st.op.Id =
      { state := none, err := some e, pollIntervalHeader := hv })
    (hretry : shoudRetry (.unknownType (some e)) = true)
    (hc : st.notFoundCount < maxNotFoundRetry) :
    loopBody u ctx b st =
      afterPoll ctx b st.polls
        [Event.query fam st.polls, Event.notFoundRetry st.polls] hv st.op
        (st.notFoundCount + 1) := by
  have hs : (st.op.client.get fam st.polls st.op.Id).state = none := by rw [hget]
  have hp : st.op.Poll u st.polls =
      { err := some (.unknownType (some e)), op := st.op, queried := some fam,
        headers := hv } := by
    rw [Poll_state_none st.op u st.polls fam hf hs]
    simp [hget, hnn]
  simp [loopBody, hnd, hp, queryEvents, hretry, hc]

/-- A loop iteration on a non-done handle whose poll fails and is not
absorbed: the poll-fail wrap of the poll error is returned. -/
theorem loopBody_pollFail (u : String → Bool) (ctx : Ctx) (b : Int)
    (st : LoopState) (fam : Family) (e : GrpcError) (hv : List String)
    (hnd : st.op.Done = false)
    (hf : pollFamily u st.op.Id = some fam)
    (hnn : fam ≠ Family.network)
    (hget : st.op.client.get fam st.polls st.op.Id =
      { state := none, err := some e, pollIntervalHeader := hv })
    (hcond : (decide (st.notFoundCount < maxNotFoundRetry) &&
      shoudRetry (.unknownType (some e))) = false) :
    loopBody u ctx b st =
      .ret (.err (.queryError (.unknownType (some e)) st.op.Id))
        [Event.query fam st.polls] := by
  have hs : (st.op.client.get fam st.polls st.op.Id).state = none := by rw [hget]
  have hp : st.op.Poll u st.polls =
      { err := some (.unknownType (some e)), op := st.op, queried := some fam,
        headers := hv } := by
    rw [Poll_state_none st.op u st.polls fam hf hs]
    simp [hget, hnn]
  simp [loopBody, hnd, hp, queryEvents, hcond]

/-- A loop iteration on a non-done handle whose poll succeeds: the
snapshot is replaced and the iteration proceeds to the wait decision on
the headers of the call. -/
theorem loopBody_pollOk (u : String → Bool) (ctx : Ctx) (b : Int)
    (st : LoopState) (fam : Family) (stNew : Proto) (hv : List String)
    (hnd : st.op.Done = false)
    (hf : pollFamily u st.op.Id = some fam)
    (hget : st.op.client.get fam st.polls st.op.Id =
      { state := some stNew, err := none, pollIntervalHeader := hv }) :
    loopBody u ctx b st =
      afterPoll ctx b st.polls [Event.query fam st.polls] hv
        { st.op with proto := stNew } st.notFoundCount := by
  have hs : (st.op.client.get fam st.polls st.op.Id).state = some stNew := by
    rw [hget]
  have he : (if fam = Family.network then none
      else (st.op.client.get fam st.polls st.op.Id).err) = none := by
    by_cases hn : fam = Family.network <;> simp [hget, hn]
  have hp : st.op.Poll u st.polls =
      { err := none, op := { st.op with proto := stNew }, queried := some fam,
        headers := hv } := by
    rw [Poll_success st.op u st.polls fam stNew hf hs he]
    simp [hget]
  simp [loopBody, hnd, hp, queryEvents]

/-- The wait decision on a terminal handle: break out of the loop and
return the final wrap. -/
theorem afterPoll_done (ctx : Ctx) (b : Int) (polls : Nat) (evs : List Event)
    (hv : List String) (op' : Operation) (nfc : Nat) (hd : op'.Done = true) :
    afterPoll ctx b polls evs hv op' nfc = .ret (waitReturn op') evs := by
  simp [afterPoll, hd]

/-- The wait decision when the resolved interval is non-positive: no
wait at all, straight to the next iteration. -/
theorem afterPoll_skip (ctx : Ctx) (b : Int) (polls : Nat) (evs : List Event)
    (hv : List String) (op' : Operation) (nfc : Nat) (hd : op'.Done = false)
    (hi : resolveInterval b hv ≤ 0) :
    afterPoll ctx b polls evs hv op' nfc =
      .next { op := op', notFoundCount := nfc, polls := polls + 1 } evs := by
  simp [afterPoll, hd, hi]

/-- The wait decision when the resolved interval is positive and the
timer wins the select: a sleep of the resolved interval, then the next
iteration. -/
theorem afterPoll_sleep (ctx : Ctx) (b : Int) (polls : Nat) (evs : List Event)
    (hv : List String) (op' : Operation) (nfc : Nat) (hd : op'.Done = false)
    (hi : 0 < resolveInterval b hv) (hcan : ctx.cancelAt polls = false) :
    afterPoll ctx b polls evs hv op' nfc =
      .next { op := op', notFoundCount := nfc, polls := polls + 1 }
        (evs ++ [Event.sleep (resolveInterval b hv)]) := by
  simp only [afterPoll, hd, Bool.false_eq_true, if_false, hcan]
  rw [if_neg (by omega)]

/-- The wait decision when the resolved interval is positive and
ctx.Done wins the select: stop the timer and return the cancellation
wrap of the context error. -/
theorem afterPoll_cancel (ctx : Ctx) (b : Int) (polls : Nat) (evs : List Event)
    (hv : List String) (op' : Operation) (nfc : Nat) (hd : op'.Done = false)
    (hi : 0 < resolveInterval b hv) (hcan : ctx.cancelAt polls = true) :
    afterPoll ctx b polls evs hv op' nfc =
      .ret (.err (.cancellationError ctx.err op'.Id)) (evs ++ [Event.timerStop]) := by
  simp only [afterPoll, hd, Bool.false_eq_true, if_false, hcan]
  rw [if_neg (by omega)]
  simp

/-- C5 as amended: a retryable not-found with budget left increments
the counter, but the retrying query is not immediate: the iteration
still goes through interval selection and sleeps the resolved interval
before the next poll whenever that interval is positive; only a
non-positive resolved interval retries with no sleep. -/
theorem waitInterval_notFound_retry_step (u : String → Bool) (ctx : Ctx)
    (b : Int) (st : LoopState) (fam : Family) (e : GrpcError)
    (hv : List String) (fuel : Nat)
    (hnd : st.op.Done = false)
    (hf : pollFamily u st.op.Id = some fam)
    (hnn : fam ≠ Family.network)
    (hget : st.op.client.get fam st.polls st.op.Id =
      { state := none, err := some e, pollIntervalHeader := hv })
    (hretry : shoudRetry (.unknownType (some e)) = true)
    (hc : st.notFoundCount < maxNotFoundRetry)
    (hcan : ctx.cancelAt st.polls = false) :
    waitIntervalAux u ctx b (fuel + 1) st =
      if 0 < resolveInterval b hv then
        ((waitIntervalAux u ctx b fuel
            { op := st.op, notFoundCount := st.notFoundCount + 1,
              polls := st.polls + 1 }).1,
         Event.query fam st.polls :: Event.notFoundRetry st.polls ::
           Event.sleep (resolveInterval b hv) ::
             (waitIntervalAux u ctx b fuel
               { op := st.op, notFoundCount := st.notFoundCount + 1,
                 polls := st.polls + 1 }).2)
      else
        ((waitIntervalAux u ctx b fuel
            { op := st.op, notFoundCount := st.notFoundCount + 1,
              polls := st.polls + 1 }).1,
         Event.query fam st.polls :: Event.notFoundRetry st.polls ::
           (waitIntervalAux u ctx b fuel
             { op := st.op, notFoundCount := st.notFoundCount + 1,
               polls := st.polls + 1 }).2) := by
  have hb := loopBody_absorb u ctx b st fam e hv hnd hf hnn hget hretry hc
  by_cases hi : 0 < resolveInterval b hv
  · rw [if_pos hi]
    have ha := afterPoll_sleep ctx b st.polls
      [Event.query fam st.polls, Event.notFoundRetry st.polls] hv st.op
      (st.notFoundCount + 1) hnd hi hcan
    rw [waitIntervalAux_succ_next u ctx b fuel st _ _ (hb.trans ha)]
    simp
  · rw [if_neg hi]
    have ha := afterPoll_skip ctx b st.polls
      [Event.query fam st.polls, Event.notFoundRetry st.polls] hv st.op
      (st.notFoundCount + 1) hnd (by omega)
    rw [waitIntervalAux_succ_next u ctx b fuel st _ _ (hb.trans ha)]
    simp

/-- Witness for C5 at the concrete not-found-then-done run: the counter
increment is followed by a base-interval sleep before the retry. -/
theorem waitInterval_notFound_retry_step_witness :
    waitIntervalAux uuidNone ctxNever 1000000000 5
        { op := opNfThenDone, notFoundCount := 0, polls := 0 } =
      (WaitResult.ok,
       [Event.query Family.clickhouse 0, Event.notFoundRetry 0,
        Event.sleep 1000000000, Event.query Family.clickhouse 1]) := by
  have h := waitInterval_notFound_retry_step uuidNone ctxNever 1000000000
    { op := opNfThenDone, notFoundCount := 0, polls := 0 } Family.clickhouse
    nfError [] 4 (by decide) (by decide) (by decide) rfl (by decide)
    (by decide) rfl
  exact h.trans (by decide)

/-- C6 as amended: the per-cycle interval is the first header value
parsed by Atoi and scaled to nanoseconds by the wrapping int64 product
with time.Second when present and parseable (so large values overflow
and can come out non-positive), and the caller base interval otherwise;
a non-positive resolved interval skips the wait entirely and the next
poll is issued with no sleep, while a positive one is slept before the
next poll. -/
theorem waitInterval_interval_selection (u : String → Bool) (ctx : Ctx)
    (b : Int) (st : LoopState) (fam : Family) (stNew : Proto)
    (hv : List String) (fuel : Nat)
    (hnd : st.op.Done = false)
    (hf : pollFamily u st.op.Id = some fam)
    (hget : st.op.client.get fam st.polls st.op.Id =
      { state := some stNew, err := none, pollIntervalHeader := hv })
    (hnd2 : Operation.Done { st.op with proto := stNew } = false)
    (hcan : ctx.cancelAt st.polls = false) :
    (∀ b' : Int, resolveInterval b' [] = b') ∧
    (∀ (b' : Int) (v : String) (rest : List String) (i : Int),
      atoi v = some i →
        resolveInterval b' (v :: rest) = int64Wrap (i * time_Second)) ∧
    (∀ (b' : Int) (v : String) (rest : List String),
      atoi v = none → resolveInterval b' (v :: rest) = b') ∧
    (waitIntervalAux u ctx b (fuel + 1) st =
      if 0 < resolveInterval b hv then
        ((waitIntervalAux u ctx b fuel
            { op := { st.op with proto := stNew },
              notFoundCount := st.notFoundCount, polls := st.polls + 1 }).1,
         Event.query fam st.polls :: Event.sleep (resolveInterval b hv) ::
           (waitIntervalAux u ctx b fuel
             { op := { st.op with proto := stNew },
               notFoundCount := st.notFoundCount, polls := st.polls + 1 }).2)
      else
        ((waitIntervalAux u ctx b fuel
            { op := { st.op with proto := stNew },
              notFoundCount := st.notFoundCount, polls := st.polls + 1 }).1,
         Event.query fam st.polls ::
           (waitIntervalAux u ctx b fuel
             { op := { st.op with proto := stNew },
               notFoundCount := st.notFoundCount, polls := st.polls + 1 }).2)) := by
  refine ⟨fun b' => rfl, ?_, ?_, ?_⟩
  · intro b' v rest i hi; simp [resolveInterval, hi]
  · intro b' v rest hi; simp [resolveInterval, hi]
  · have hb := loopBody_pollOk u ctx b st fam stNew hv hnd hf hget
    by_cases hi : 0 < resolveInterval b hv
    · rw [if_pos hi]
      have ha := afterPoll_sleep ctx b st.polls [Event.query fam st.polls] hv
        { st.op with proto := stNew } st.notFoundCount hnd2 hi hcan
      rw [waitIntervalAux_succ_next u ctx b fuel st _ _ (hb.trans ha)]
      simp
    · rw [if_neg hi]
      have ha := afterPoll_skip ctx b st.polls [Event.query fam st.polls] hv
        { st.op with proto := stNew } st.notFoundCount hnd2 (by omega)
      rw [waitIntervalAux_succ_next u ctx b fuel st _ _ (hb.trans ha)]
      simp

/-- Witness for C6 at the concrete overflowing-header run: the resolved
interval is non-positive, so the next poll follows with no sleep. -/
theorem waitInterval_interval_selection_witness :
    waitIntervalAux uuidNone ctxNever 1000000000 10
        { op := opBigHeader, notFoundCount := 0, polls := 0 } =
      (WaitResult.ok,
       [Event.query Family.clickhouse 0, Event.query Family.clickhouse 1]) := by
  have h := (waitInterval_interval_selection uuidNone ctxNever 1000000000
    { op := opBigHeader, notFoundCount := 0, polls := 0 } Family.clickhouse
    protoRun ["10000000000"] 9 (by decide) (by decide) rfl (by decide)
    rfl).2.2.2
  exact h.trans (by decide)

/-- A run over a backend that answers every query of the matched family
with a retryable not-found: starting with counter j and poll index p,
the loop absorbs 3 - j more failures and returns the poll-fail wrap of
the failure after issuing exactly 4 - j queries. -/
theorem allNf_run (u : String → Bool) (ctx : Ctx) (b : Int) (o : Operation)
    (fam : Family) (e : Nat → GrpcError) (hv : Nat → List String)
    (hnd : o.Done = false)
    (hf : pollFamily u o.Id = some fam)
    (hnn : fam ≠ Family.network)
    (hget : ∀ k, o.client.get fam k o.Id =
      { state := none, err := some (e k), pollIntervalHeader := hv k })
    (hretry : ∀ k, shoudRetry (.unknownType (some (e k))) = true)
    (hcan : ∀ k, ctx.cancelAt k = false) :
    ∀ (fuel j p : Nat), j ≤ maxNotFoundRetry →
      maxNotFoundRetry + 1 - j ≤ fuel →
      (waitIntervalAux u ctx b fuel { op := o, notFoundCount := j, polls := p }).1 =
        .err (.queryError
          (.unknownType (some (e (p + (maxNotFoundRetry - j))))) o.Id) ∧
      queryCount
        (waitIntervalAux u ctx b fuel { op := o, notFoundCount := j, polls := p }).2 =
        maxNotFoundRetry + 1 - j := by
  intro fuel
  induction fuel with
  | zero =>
    intro j p hj hfuel
    exact absurd hfuel (by simp [maxNotFoundRetry]; omega)
  | succ fuel ih =>
    intro j p hj hfuel
    by_cases hjlt : j < maxNotFoundRetry
    · have hb := loopBody_absorb u ctx b
        { op := o, notFoundCount := j, polls := p } fam (e p) (hv p) hnd hf hnn
        (hget p) (hretry p) hjlt
      obtain ⟨ih1, ih2⟩ := ih (j + 1) (p + 1) (by omega) (by omega)
      have hidx : p + 1 + (maxNotFoundRetry - (j + 1)) =
          p + (maxNotFoundRetry - j) := by omega
      by_cases hi : 0 < resolveInterval b (hv p)
      · have ha := afterPoll_sleep ctx b p
          [Event.query fam p, Event.notFoundRetry p] (hv p) o (j + 1) hnd hi
          (hcan p)
        rw [waitIntervalAux_succ_next u ctx b fuel _ _ _ (hb.trans ha)]
        refine ⟨by rw [ih1, hidx], ?_⟩
        simp only [queryCount, List.countP_append] at ih2 ⊢
        simp [Event.isQuery, List.countP_cons] at ih2 ⊢
        omega
      · have ha := afterPoll_skip ctx b p
          [Event.query fam p, Event.notFoundRetry p] (hv p) o (j + 1) hnd
          (by omega)
        rw [waitIntervalAux_succ_next u ctx b fuel _ _ _ (hb.trans ha)]
        refine ⟨by rw [ih1, hidx], ?_⟩
        simp only [queryCount, List.countP_append] at ih2 ⊢
        simp [Event.isQuery, List.countP_cons] at ih2 ⊢
        omega
    · have hcond : (decide (j < maxNotFoundRetry) &&
          shoudRetry (.unknownType (some (e p)))) = false := by
        simp [hjlt]
      have hb := loopBody_pollFail u ctx b
        { op := o, notFoundCount := j, polls := p } fam (e p) (hv p) hnd hf hnn
        (hget p) hcond
      rw [waitIntervalAux_succ_ret u ctx b fuel _ _ _ hb]
      have hj3 : j = maxNotFoundRetry := by omega
      subst hj3
      refine ⟨by simp, ?_⟩
      simp [queryCount, List.countP_cons, Event.isQuery]

/-- C4: against a backend whose matched query keeps failing with
not-found, the fourth consecutive not-found is never retried: the wait
returns the poll-fail (query-error) wrap of the fourth failure, having
issued exactly four queries (three absorbed failures and the fatal
fourth); the wrap is distinct from the operation-failed wrap. -/
theorem waitInterval_fourth_notFound_fails (u : String → Bool) (ctx : Ctx)
    (b : Int) (o : Operation) (fam : Family) (e : Nat → GrpcError)
    (hv : Nat → List String) (fuel : Nat)
    (hnd : o.Done = false)
    (hf : pollFamily u o.Id = some fam)
    (hnn : fam ≠ Family.network)
    (hget : ∀ k, o.client.get fam k o.Id =
      { state := none, err := some (e k), pollIntervalHeader := hv k })
    (hretry : ∀ k, shoudRetry (.unknownType (some (e k))) = true)
    (hcan : ∀ k, ctx.cancelAt k = false)
    (hfuel : maxNotFoundRetry + 1 ≤ fuel) :
    (o.waitInterval u ctx b fuel).1 =
      .err (.queryError (.unknownType (some (e maxNotFoundRetry))) o.Id) ∧
    queryCount (o.waitInterval u ctx b fuel).2 = maxNotFoundRetry + 1 ∧
    (∀ (pe : PollError) (i : String) (s : RpcStatus) (j : String),
      WaitError.queryError pe i ≠ WaitError.operationError s j) := by
  obtain ⟨h1, h2⟩ := allNf_run u ctx b o fam e hv hnd hf hnn hget hretry hcan
    fuel 0 0 (by omega) (by omega)
  refine ⟨?_, ?_, ?_⟩
  · simpa using h1
  · simpa using h2
  · intro pe i s j; simp

/-- Witness for C4 at a concrete always-not-found backend: four queries
and the query-error wrap. -/
theorem waitInterval_fourth_notFound_fails_witness :
    (opAllNf.waitInterval uuidNone ctxNever 1000000000 10).1 =
      .err (.queryError (.unknownType (some nfError)) "cho-op-1") ∧
    queryCount (opAllNf.waitInterval uuidNone ctxNever 1000000000 10).2 = 4 := by
  have h := waitInterval_fourth_notFound_fails uuidNone ctxNever 1000000000
    opAllNf Family.clickhouse (fun _ => nfError) (fun _ => []) 10 (by decide)
    (by decide) (by decide) (fun _ => rfl) (fun _ => rfl) (fun _ => rfl)
    (by decide)
  exact ⟨h.1, h.2.1⟩

/-! Branch enumeration lemmas for the loop, used by the cancellation
and retry-budget claims. -/

/-- A timer stop never appears among the query events of a poll. -/
theorem queryEvents_stop_free (p : PollOut) (k : Nat) :
    Event.timerStop ∉ queryEvents p k := by
  cases hp : p.queried <;> simp [queryEvents, hp]

/-- A retry-counter increment never appears among the query events of a
poll. -/
theorem queryEvents_retryCount (p : PollOut) (k : Nat) :
    retryCount (queryEvents p k) = 0 := by
  cases hp : p.queried <;>
    simp [queryEvents, hp, retryCount, List.countP_cons, Event.isNotFoundRetry]

/-- retryCount distributes over append. -/
theorem retryCount_append (a b : List Event) :
    retryCount (a ++ b) = retryCount a + retryCount b :=
  List.countP_append _ _ _

/-- One retry event counts 1. -/
theorem retryCount_retry (k : Nat) : retryCount [Event.notFoundRetry k] = 1 := by
  simp [retryCount, List.countP_cons, Event.isNotFoundRetry]

/-- One sleep event counts 0. -/
theorem retryCount_sleep (ns : Int) : retryCount [Event.sleep ns] = 0 := by
  simp [retryCount, List.countP_cons, Event.isNotFoundRetry]

/-- One timer-stop event counts 0. -/
theorem retryCount_stop : retryCount [Event.timerStop] = 0 := by
  simp [retryCount, List.countP_cons, Event.isNotFoundRetry]

/-- Appending one non-stop event keeps a list free of timer stops. -/
theorem stop_free_append_single (l : List Event) (x : Event)
    (hl : Event.timerStop ∉ l) (hx : x ≠ Event.timerStop) :
    Event.timerStop ∉ l ++ [x] := by
  intro hmem
  rcases List.mem_append.mp hmem with hm | hm
  · exact hl hm
  · rw [List.mem_singleton] at hm
    exact hx hm.symm

/-- The final wrap of the loop is never the cancellation error. -/
theorem waitReturn_ne_cancellation (o : Operation) (c : CtxError) (i : String) :
    waitReturn o ≠ .err (.cancellationError c i) := by
  unfold waitReturn
  cases o.Error <;> simp

/-- What the wait decision can continue with: the counter is passed
through, and the events are the incoming ones, possibly followed by one
sleep. -/
theorem afterPoll_next_spec (ctx : Ctx) (b : Int) (polls : Nat)
    (evs : List Event) (hv : List String) (op' : Operation) (nfc : Nat)
    (st' : LoopState) (evs2 : List Event)
    (h : afterPoll ctx b polls evs hv op' nfc = .next st' evs2) :
    st'.notFoundCount = nfc ∧
    (evs2 = evs ∨ ∃ ns, evs2 = evs ++ [Event.sleep ns]) := by
  simp only [afterPoll] at h
  split at h
  · simp at h
  · split at h
    · injection h with h1 h2
      exact ⟨by rw [← h1], Or.inl h2.symm⟩
    · split at h
      · simp at h
      · injection h with h1 h2
        exact ⟨by rw [← h1], Or.inr ⟨_, h2.symm⟩⟩

/-- What the wait decision can return with: either the final wrap with
the incoming events, or the cancellation wrap with the incoming events
followed by the timer stop. -/
theorem afterPoll_ret_spec (ctx : Ctx) (b : Int) (polls : Nat)
    (evs : List Event) (hv : List String) (op' : Operation) (nfc : Nat)
    (r : WaitResult) (evs2 : List Event)
    (h : afterPoll ctx b polls evs hv op' nfc = .ret r evs2) :
    (r = waitReturn op' ∧ evs2 = evs) ∨
    (r = .err (.cancellationError ctx.err op'.Id) ∧
      evs2 = evs ++ [Event.timerStop]) := by
  simp only [afterPoll] at h
  split at h
  · injection h with h1 h2
    exact Or.inl ⟨h1.symm, h2.symm⟩
  · split at h
    · simp at h
    · split at h
      · injection h with h1 h2
        exact Or.inr ⟨h1.symm, h2.symm⟩
      · simp at h

/-- What a continuing loop iteration can do: no timer stop among its
events, and the counter either passes through with no retry event or
increments under the budget with exactly one retry event. -/
theorem loopBody_next_spec (u : String → Bool) (ctx : Ctx) (b : Int)
    (st st' : LoopState) (evs : List Event)
    (h : loopBody u ctx b st = .next st' evs) :
    Event.timerStop ∉ evs ∧
    (st'.notFoundCount = st.notFoundCount ∧ retryCount evs = 0 ∨
     st'.notFoundCount = st.notFoundCount + 1 ∧ retryCount evs = 1 ∧
       st.notFoundCount < maxNotFoundRetry) := by
  simp only [loopBody] at h
  split at h
  · simp at h
  · split at h
    · rename_i e heq
      split at h
      · rename_i hcond
        obtain ⟨hn, hevs⟩ := afterPoll_next_spec _ _ _ _ _ _ _ _ _ h
        have hlt : st.notFoundCount < maxNotFoundRetry := by
          simp [Bool.and_eq_true] at hcond
          exact hcond.1
        have hbase : Event.timerStop ∉
            (queryEvents (st.op.Poll u st.polls) st.polls ++
              [Event.notFoundRetry st.polls]) :=
          stop_free_append_single _ _ (queryEvents_stop_free _ _) (by simp)
        have hbrc : retryCount
            (queryEvents (st.op.Poll u st.polls) st.polls ++
              [Event.notFoundRetry st.polls]) = 1 := by
          rw [retryCount_append, queryEvents_retryCount, retryCount_retry]
        rcases hevs with hevs | ⟨ns, hevs⟩
        · subst hevs
          exact ⟨hbase, Or.inr ⟨hn, hbrc, hlt⟩⟩
        · subst hevs
          refine ⟨stop_free_append_single _ _ hbase (by simp),
            Or.inr ⟨hn, ?_, hlt⟩⟩
          rw [retryCount_append, hbrc, retryCount_sleep]
      · simp at h
    · obtain ⟨hn, hevs⟩ := afterPoll_next_spec _ _ _ _ _ _ _ _ _ h
      have hbase := queryEvents_stop_free (st.op.Poll u st.polls) st.polls
      have hbrc := queryEvents_retryCount (st.op.Poll u st.polls) st.polls
      rcases hevs with hevs | ⟨ns, hevs⟩
      · subst hevs
        exact ⟨hbase, Or.inl ⟨hn, hbrc⟩⟩
      · subst hevs
        refine ⟨stop_free_append_single _ _ hbase (by simp), Or.inl ⟨hn, ?_⟩⟩
        rw [retryCount_append, hbrc, retryCount_sleep]

/-- What a returning loop iteration can do: at most one retry event
(none when the budget is spent); the cancellation wrap carries the
context error, and appears exactly with a trailing timer stop after
stop-free events; nothing follows the stop. -/
theorem loopBody_ret_spec (u : String → Bool) (ctx : Ctx) (b : Int)
    (st : LoopState) (r : WaitResult) (evs : List Event)
    (h : loopBody u ctx b st = .ret r evs) :
    retryCount evs ≤ (if st.notFoundCount < maxNotFoundRetry then 1 else 0) ∧
    (∀ c i, r = .err (.cancellationError c i) → c = ctx.err) ∧
    ((∃ c i, r = .err (.cancellationError c i)) →
      ∃ evs0, Event.timerStop ∉ evs0 ∧ evs = evs0 ++ [Event.timerStop]) ∧
    (¬(∃ c i, r = .err (.cancellationError c i)) →
      Event.timerStop ∉ evs) := by
  simp only [loopBody] at h
  split at h
  · injection h with h1 h2
    subst h1; subst h2
    refine ⟨by rw [retryCount]; simp, ?_, ?_, by simp⟩
    · intro c i hc; exact absurd hc (waitReturn_ne_cancellation _ _ _)
    · rintro ⟨c, i, hc⟩; exact absurd hc (waitReturn_ne_cancellation _ _ _)
  · split at h
    · rename_i e heq
      split at h
      · rename_i hcond
        have hlt : st.notFoundCount < maxNotFoundRetry := by
          simp [Bool.and_eq_true] at hcond
          exact hcond.1
        have hbase : Event.timerStop ∉
            (queryEvents (st.op.Poll u st.polls) st.polls ++
              [Event.notFoundRetry st.polls]) :=
          stop_free_append_single _ _ (queryEvents_stop_free _ _) (by simp)
        have hbrc : retryCount
            (queryEvents (st.op.Poll u st.polls) st.polls ++
              [Event.notFoundRetry st.polls]) = 1 := by
          rw [retryCount_append, queryEvents_retryCount, retryCount_retry]
        rcases afterPoll_ret_spec _ _ _ _ _ _ _ _ _ h with ⟨hr, hevs⟩ | ⟨hr, hevs⟩
        · subst hr; subst hevs
          refine ⟨by rw [if_pos hlt, hbrc], ?_, ?_, fun _ => hbase⟩
          · intro c i hc; exact absurd hc (waitReturn_ne_cancellation _ _ _)
          · rintro ⟨c, i, hc⟩; exact absurd hc (waitReturn_ne_cancellation _ _ _)
        · subst hr; subst hevs
          refine ⟨?_, ?_, ?_, ?_⟩
          · rw [if_pos hlt, retryCount_append, hbrc, retryCount_stop]
          · intro c i hc; injection hc with hc2; injection hc2 with hc3 hc4
            exact hc3.symm
          · intro _; exact ⟨_, hbase, rfl⟩
          · intro hno; exact absurd ⟨_, _, rfl⟩ hno
      · injection h with h1 h2
        subst h1; subst h2
        refine ⟨?_, by intro c i hc; simp at hc, ?_, ?_⟩
        · rw [queryEvents_retryCount]; split <;> omega
        · rintro ⟨c, i, hc⟩; simp at hc
        · intro _; exact queryEvents_stop_free _ _
    · have hbase := queryEvents_stop_free (st.op.Poll u st.polls) st.polls
      have hbrc := queryEvents_retryCount (st.op.Poll u st.polls) st.polls
      rcases afterPoll_ret_spec _ _ _ _ _ _ _ _ _ h with ⟨hr, hevs⟩ | ⟨hr, hevs⟩
      · subst hr; subst hevs
        refine ⟨by rw [hbrc]; split <;> omega, ?_, ?_, fun _ => hbase⟩
        · intro c i hc; exact absurd hc (waitReturn_ne_cancellation _ _ _)
        · rintro ⟨c, i, hc⟩; exact absurd hc (waitReturn_ne_cancellation _ _ _)
      · subst hr; subst hevs
        refine ⟨?_, ?_, ?_, ?_⟩
        · rw [retryCount_append, hbrc, retryCount_stop]; split <;> omega
        · intro c i hc; injection hc with hc2; injection hc2 with hc3 hc4
          exact hc3.symm
        · intro _; exact ⟨_, hbase, rfl⟩
        · intro hno; exact absurd ⟨_, _, rfl⟩ hno

/-- Splitting an append at an element absent from the left part: the
split lies in the right part. -/
theorem notMem_append_decomp {α : Type _} (a : α) :
    ∀ (evs tr pre suf : List α), a ∉ evs → evs ++ tr = pre ++ a :: suf →
      ∃ pre2, tr = pre2 ++ a :: suf := by
  intro evs
  induction evs with
  | nil => intro tr pre suf _ h; exact ⟨pre, h⟩
  | cons x evs ih =>
    intro tr pre suf hnm h
    cases pre with
    | nil =>
      injection h with h1 h2
      subst h1
      exact absurd (List.mem_cons_self x evs) hnm
    | cons y pre =>
      injection h with h1 h2
      exact ih tr pre suf (fun hm => hnm (List.mem_cons_of_mem x hm)) h2

/-- A wait result is recognised as a cancellation exactly when it is
the cancellation-error wrap. -/
theorem isCancellation_iff (r : WaitResult) :
    isCancellation r = true ↔
      ∃ c i, r = .err (.cancellationError c i) := by
  cases r with
  | ok => simp [isCancellation]
  | outOfFuel => simp [isCancellation]
  | err e =>
    cases e with
    | queryError pe i => simp [isCancellation]
    | cancellationError c i =>
      simp only [isCancellation, true_iff]
      exact ⟨c, i, rfl⟩
    | operationError s i => simp [isCancellation]

/-- C10: the not-found retry budget is cumulative over the whole wait:
whatever the backend answers, a run increments the retry counter at
most maxNotFoundRetry times in total, successful polls in between
notwithstanding (the counter is never reset). -/
theorem waitInterval_retry_budget_cumulative (u : String → Bool) (ctx : Ctx)
    (b : Int) (fuel : Nat) (o : Operation) :
    retryCount (o.waitInterval u ctx b fuel).2 ≤ maxNotFoundRetry := by
  have main : ∀ (fuel : Nat) (st : LoopState),
      retryCount (waitIntervalAux u ctx b fuel st).2 ≤
        maxNotFoundRetry - st.notFoundCount := by
    intro fuel
    induction fuel with
    | zero =>
      intro st
      rw [waitIntervalAux_zero]
      simp [retryCount]
    | succ fuel ih =>
      intro st
      cases hlb : loopBody u ctx b st with
      | ret r evs =>
        rw [waitIntervalAux_succ_ret u ctx b fuel st r evs hlb]
        dsimp only
        have hb := (loopBody_ret_spec u ctx b st r evs hlb).1
        by_cases hc : st.notFoundCount < maxNotFoundRetry
        · rw [if_pos hc] at hb; omega
        · rw [if_neg hc] at hb; omega
      | next st' evs =>
        rw [waitIntervalAux_succ_next u ctx b fuel st st' evs hlb]
        dsimp only
        have hs := (loopBody_next_spec u ctx b st st' evs hlb).2
        have ihs := ih st'
        rw [retryCount_append]
        rcases hs with ⟨hn, hrc⟩ | ⟨hn, hrc, hlt⟩ <;> rw [hn] at ihs <;> omega
  have h := main fuel { op := o, notFoundCount := 0, polls := 0 }
  simpa using h

/-- C8: a run returns the cancellation wrap exactly when its trace ends
with the timer being stopped; the wrap carries the context error; no
event at all (in particular no query) follows a timer stop; and the
cancellation wrap is distinct from the query-error and operation-error
wraps. -/
theorem waitInterval_cancellation (u : String → Bool) (ctx : Ctx) (b : Int)
    (fuel : Nat) (st : LoopState) :
    (isCancellation (waitIntervalAux u ctx b fuel st).1 = true ↔
      ∃ pre, (waitIntervalAux u ctx b fuel st).2 = pre ++ [Event.timerStop]) ∧
    (∀ c i, (waitIntervalAux u ctx b fuel st).1 =
      .err (.cancellationError c i) → c = ctx.err) ∧
    (∀ pre suf, (waitIntervalAux u ctx b fuel st).2 =
      pre ++ Event.timerStop :: suf → suf = []) ∧
    (∀ (c : CtxError) (i : String) (pe : PollError) (j : String) (s : RpcStatus),
      WaitError.cancellationError c i ≠ WaitError.queryError pe j ∧
      WaitError.cancellationError c i ≠ WaitError.operationError s j) := by
  induction fuel generalizing st with
  | zero =>
    rw [waitIntervalAux_zero]
    refine ⟨?_, ?_, ?_, ?_⟩
    · constructor
      · intro hc; exact absurd hc (by decide)
      · rintro ⟨pre, hp⟩
        dsimp only at hp
        exact absurd hp.symm (by simp)
    · intro c i hc
      exact absurd hc (by simp)
    · intro pre suf hp
      dsimp only at hp
      exact absurd hp.symm (by simp)
    · intro c i pe j s; exact ⟨by simp, by simp⟩
  | succ fuel ih =>
    cases hlb : loopBody u ctx b st with
    | ret r evs =>
      rw [waitIntervalAux_succ_ret u ctx b fuel st r evs hlb]
      dsimp only
      obtain ⟨_, hcause, hcyes, hcno⟩ := loopBody_ret_spec u ctx b st r evs hlb
      by_cases hc : ∃ c i, r = .err (.cancellationError c i)
      · obtain ⟨evs0, hnm, heq⟩ := hcyes hc
        subst heq
        refine ⟨?_, hcause, ?_, ?_⟩
        · constructor
          · intro _; exact ⟨evs0, rfl⟩
          · intro _; exact (isCancellation_iff r).mpr hc
        · intro pre suf hp
          obtain ⟨pre2, h2⟩ :=
            notMem_append_decomp Event.timerStop evs0 [Event.timerStop]
              pre suf hnm hp
          cases pre2 with
          | nil => injection h2 with _ h3; exact h3.symm
          | cons z pre2 => injection h2 with _ h4; simp at h4
        · intro c i pe j s; exact ⟨by simp, by simp⟩
      · have hnm := hcno hc
        refine ⟨?_, hcause, ?_, ?_⟩
        · constructor
          · intro hic; exact absurd ((isCancellation_iff r).mp hic) hc
          · rintro ⟨pre, hp⟩
            exact absurd (by rw [hp]; simp) hnm
        · intro pre suf hp
          exact absurd (by rw [hp]; simp) hnm
        · intro c i pe j s; exact ⟨by simp, by simp⟩
    | next st' evs =>
      rw [waitIntervalAux_succ_next u ctx b fuel st st' evs hlb]
      dsimp only
      have hnm := (loopBody_next_spec u ctx b st st' evs hlb).1
      obtain ⟨ih1, ih2, ih3, _⟩ := ih st'
      refine ⟨?_, ih2, ?_, ?_⟩
      · constructor
        · intro hic
          obtain ⟨pre, hp⟩ := ih1.mp hic
          exact ⟨evs ++ pre, by rw [hp, List.append_assoc]⟩
        · rintro ⟨pre, hp⟩
          obtain ⟨pre2, h2⟩ :=
            notMem_append_decomp Event.timerStop evs
              (waitIntervalAux u ctx b fuel st').2 pre [] hnm hp
          exact ih1.mpr ⟨pre2, h2⟩
      · intro pre suf hp
        obtain ⟨pre2, h2⟩ :=
          notMem_append_decomp Event.timerStop evs
            (waitIntervalAux u ctx b fuel st').2 pre suf hnm hp
        exact ih3 pre2 suf h2
      · intro c i pe j s; exact ⟨by simp, by simp⟩

/-- Witness for C8 at a concrete run cancelled at the first waiting
point. -/
theorem waitInterval_cancellation_witness :
    isCancellation (opRunning.waitInterval uuidNone ctxCancel0 1000000000 5).1 =
      true :=
  (waitInterval_cancellation uuidNone ctxCancel0 1000000000 5
    { op := opRunning, notFoundCount := 0, polls := 0 }).1.mpr
    ⟨[Event.query Family.clickhouse 0], by decide⟩

end GoSdk
